import Mathlib

/-!
Verification development for the evergreen-universe-rs core:

* the SIP2 protocol-gateway session state machine
  (`src/sip2-server/src/session.rs`), and
* the rs-store service application: metadata-driven method registration
  and per-worker transaction safety
  (`src/evergreen/src/bin/eg-svc-rs-store/app.rs`).

Pure functions of the source are embedded directly; stateful code is
embedded as explicit state passing.  Code of collaborating crates that is
not part of this repository's sources (the `sip2` wire utilities, the
`eg::db` database connection, the rs-store static method table) is
modelled from the specification and marked as such in doc comments.
-/

namespace Sip

/-- A SIP2 message: a two-character message code, the ordered list of
fixed-field values, and the list of coded variable fields.
Mirrors `sip2::Message` as used by `session.rs`. -/
structure Message where
  code : String
  fixedFields : List String
  fields : List (String × String)
deriving DecidableEq, Repr

/-- Modelled from the spec: `sip2::Message::get_field_value` (the `sip2`
crate is not under `src/`) returns the value of the first field carrying
the given two-character field code. -/
def Message.getFieldValue (m : Message) (c : String) : Option String :=
  (m.fields.find? (fun p => p.1 == c)).map (fun p => p.2)

/-- Modelled from the spec: `sip2::Message::add_field` appends one coded
field to the message. -/
def Message.addField (m : Message) (c v : String) : Message :=
  { m with fields := m.fields ++ [(c, v)] }

/-- Modelled from the spec: `sip2::util::num_bool` renders a boolean as
the SIP numeric flag "1"/"0". -/
def num_bool (b : Bool) : String := if b then "1" else "0"

/-- Modelled from the spec: `sip2::util::sip_bool` renders a boolean as
the SIP flag "Y"/"N". -/
def sip_bool (b : Bool) : String := if b then "Y" else "N"

/-- Gateway-side account from the SIP server configuration
(`conf::SipAccount`): SIP credentials, the mapped ILS identity, and
institution settings. -/
structure SipAccount where
  sip_username : String
  sip_password : String
  ils_username : String
  ils_user_id : Option Int
  workstation : Option String
  institution : String
deriving DecidableEq, Repr

/-- SIP server configuration (`conf::Config`): the configured accounts
and the deployment flags read by `session.rs`. -/
structure Config where
  accounts : List SipAccount
  sc_status_before_login : Bool
deriving DecidableEq, Repr

/-- Modelled from the spec: `conf::Config::get_account` (the `conf`
module is not under `src/`) resolves an account by its SIP username. -/
def Config.get_account (cfg : Config) (username : String) : Option SipAccount :=
  cfg.accounts.find? (fun a => a.sip_username == username)

/-- The per-connection session state of `Session` in `session.rs`:
the configuration, the optional bound account (`None` while
Unauthenticated), and the org-unit descriptor cache. -/
structure SessionState where
  sip_config : Config
  account : Option SipAccount
  org_cache : List (Int × String)
deriving DecidableEq, Repr

/-- The fixed capability flag string advertised in SC-status replies
(`INSTITUTION_SUPPORTS` in `session.rs`). -/
def INSTITUTION_SUPPORTS : String := "YYYNYNYYNYYNNNYN"

/-- An org-unit descriptor as used by `handle_sc_status` (name and
shortname fields of the org unit). -/
structure OrgInfo where
  name : String
  shortname : String
deriving DecidableEq, Repr

/-- The backend (ILS) operations `handle_sc_status` performs through the
editor: verifying/establishing the auth token, resolving the workstation
org id, and fetching an org descriptor.  These go over the network and
are embedded as an explicit oracle; each call returns the possibly
mutated session state together with its result. -/
structure IlsOracle where
  set_authtoken : SessionState → SessionState × Except String Unit
  get_ws_org_id : SessionState → SessionState × Except String Int
  org_from_id : SessionState → Int → SessionState × Except String (Option OrgInfo)
  sip_date_now : String

/-- The authenticated business handlers dispatched by
`handle_sip_request` (checkin, checkout, item info, patron status,
payment, patron info).  Their bodies live outside `session.rs`; they are
embedded as explicit functions from session state and message to the
updated state and a reply. -/
structure Handlers where
  checkin : SessionState → Message → SessionState × Except String Message
  checkout : SessionState → Message → SessionState × Except String Message
  item_info : SessionState → Message → SessionState × Except String Message
  patron_status : SessionState → Message → SessionState × Except String Message
  payment : SessionState → Message → SessionState × Except String Message
  patron_info : SessionState → Message → SessionState × Except String Message

/-- The login response message (`M_LOGIN_RESP`, code "94") carrying the
single ok/fail fixed field. -/
def mkLoginResp (ok : String) : Message :=
  { code := "94", fixedFields := [ok], fields := [] }

/-- Embedding of `Session::handle_login` (session.rs lines 293-317):
clears any bound account, then binds the configured account and answers
"1" exactly when the message carries both the CN (username) and CO
(password) fields, the username names a configured account and the
password equals its SIP password; in every other case it answers "0" and
leaves no account bound.  Always returns `Ok`. -/
def handle_login (s0 : SessionState) (msg : Message) :
    SessionState × Except String Message :=
  let s := { s0 with account := none }
  match msg.getFieldValue "CN" with
  | none => (s, Except.ok (mkLoginResp (num_bool false)))
  | some username =>
    match msg.getFieldValue "CO" with
    | none => (s, Except.ok (mkLoginResp (num_bool false)))
    | some password =>
      match s.sip_config.get_account username with
      | none => (s, Except.ok (mkLoginResp (num_bool false)))
      | some account =>
        if account.sip_password == password then
          ({ s with account := some account },
            Except.ok (mkLoginResp (num_bool true)))
        else
          (s, Except.ok (mkLoginResp (num_bool false)))

/-- Embedding of `Session::handle_sc_status` (session.rs lines 319-356):
fails when called before login on a deployment without
"sc status before login"; otherwise builds the ACS-status reply whose
BX field is the `INSTITUTION_SUPPORTS` constant, adding the
institution/org fields (via the backend oracle) when an account is
bound. -/
def handle_sc_status (O : IlsOracle) (s : SessionState) :
    SessionState × Except String Message :=
  if s.account.isNone && !s.sip_config.sc_status_before_login then
    (s, Except.error "SC Status before login disabled")
  else
    let resp : Message :=
      { code := "98"
        fixedFields := [sip_bool true, sip_bool true, sip_bool true,
          sip_bool true, sip_bool false, sip_bool false, "999", "999",
          O.sip_date_now, "2.00"]
        fields := [("BX", INSTITUTION_SUPPORTS), ("AF", ""), ("AG", "")] }
    match s.account with
    | none => (s, Except.ok resp)
    | some a =>
      let resp := resp.addField "AO" a.institution
      match O.set_authtoken s with
      | (s1, Except.error e) => (s1, Except.error e)
      | (s1, Except.ok _) =>
        match O.get_ws_org_id s1 with
        | (s2, Except.error e) => (s2, Except.error e)
        | (s2, Except.ok orgid) =>
          match O.org_from_id s2 orgid with
          | (s3, Except.error e) => (s3, Except.error e)
          | (s3, Except.ok none) => (s3, Except.ok resp)
          | (s3, Except.ok (some org)) =>
            (s3, Except.ok ((resp.addField "AM" org.name).addField
              "AN" org.shortname))

/-- Result of dispatching one SIP request: the updated session state,
the reply or error, and (for auditing the dispatch) the request code of
the authenticated business handler that was invoked, if any. -/
structure DispatchResult where
  state : SessionState
  resp : Except String Message
  dispatched : Option String
deriving Repr

/-- Embedding of `Session::handle_sip_request` (session.rs lines
268-291): codes "99" and "93" are handled in any state; every other
code first requires an account to be bound, else yields the error
"SIP client is not logged in"; then the six business handlers are
dispatched by code and any remaining code yields an "Unsupported"
error. -/
def handle_sip_request (H : Handlers) (O : IlsOracle) (s : SessionState)
    (msg : Message) : DispatchResult :=
  if msg.code == "99" then
    { state := (handle_sc_status O s).1, resp := (handle_sc_status O s).2,
      dispatched := none }
  else if msg.code == "93" then
    { state := (handle_login s msg).1, resp := (handle_login s msg).2,
      dispatched := none }
  else if s.account.isNone then
    { state := s, resp := Except.error "SIP client is not logged in",
      dispatched := none }
  else if msg.code == "09" then
    { state := (H.checkin s msg).1, resp := (H.checkin s msg).2,
      dispatched := some "09" }
  else if msg.code == "11" then
    { state := (H.checkout s msg).1, resp := (H.checkout s msg).2,
      dispatched := some "11" }
  else if msg.code == "17" then
    { state := (H.item_info s msg).1, resp := (H.item_info s msg).2,
      dispatched := some "17" }
  else if msg.code == "23" then
    { state := (H.patron_status s msg).1, resp := (H.patron_status s msg).2,
      dispatched := some "23" }
  else if msg.code == "37" then
    { state := (H.payment s msg).1, resp := (H.payment s msg).2,
      dispatched := some "37" }
  else if msg.code == "63" then
    { state := (H.patron_info s msg).1, resp := (H.patron_info s msg).2,
      dispatched := some "63" }
  else
    { state := s,
      resp := Except.error ("Unsupported SIP message code=" ++ msg.code),
      dispatched := none }

/-- Outcome of one iteration of the receive loop in `Session::start`:
continue without a message, continue after sending a reply, exit
cleanly (shutdown signal: break, disconnect, return Ok), or exit with
an error (the `?` operators in the loop body). -/
inductive StepOutcome where
  | cont (s : SessionState)
  | sent (s : SessionState) (resp : Message)
  | exitOk
  | exitErr (e : String)
deriving Repr

/-- Embedding of one iteration of the receive loop of `Session::start`
(session.rs lines 226-265).  `recv` is the outcome of
`recv_with_timeout` and `sendOk` the outcome of the transport send;
both are external inputs.  An `Err` from `handle_sip_request`
propagates via `?`, terminating the loop (and hence the session)
with that error. -/
def session_step (H : Handlers) (O : IlsOracle) (shutdown : Bool)
    (recv : Except String (Option Message)) (sendOk : Bool)
    (s : SessionState) : StepOutcome :=
  if shutdown then StepOutcome.exitOk
  else
    match recv with
    | Except.error e => StepOutcome.exitErr ("SIP recv() failed: " ++ e)
    | Except.ok none => StepOutcome.cont s
    | Except.ok (some req) =>
      match (handle_sip_request H O s req).resp with
      | Except.error e => StepOutcome.exitErr e
      | Except.ok resp =>
        if sendOk then StepOutcome.sent (handle_sip_request H O s req).state resp
        else StepOutcome.exitErr "SIP send failed"

/-- A login attempt succeeds exactly when the message carries CN and CO
fields, CN names a configured account and CO matches its SIP password
(the success condition of `handle_login`). -/
def loginSucceeds (cfg : Config) (msg : Message) : Bool :=
  match msg.getFieldValue "CN", msg.getFieldValue "CO" with
  | some username, some password =>
    match cfg.get_account username with
    | some account => account.sip_password == password
    | none => false
  | _, _ => false

end Sip

namespace StoreApp

/-- The service identity (`APPNAME` in eg-svc-rs-store/app.rs). -/
def APPNAME : String := "open-ils.rs-store"

/-- The five CRUD operations for which derived methods are generated. -/
inductive CrudOp where
  | create
  | retrieve
  | search
  | update
  | delete
deriving DecidableEq, Repr

/-- Wire name of each CRUD operation, as spliced into the generated
method name in `register_auto_methods`. -/
def CrudOp.opName : CrudOp → String
  | CrudOp.create => "create"
  | CrudOp.retrieve => "retrieve"
  | CrudOp.search => "search"
  | CrudOp.update => "update"
  | CrudOp.delete => "delete"

/-- Name of the static stub template cloned for each CRUD operation
("create-stub", ..., per `register_auto_methods`). -/
def CrudOp.stubName : CrudOp → String
  | CrudOp.create => "create-stub"
  | CrudOp.retrieve => "retrieve-stub"
  | CrudOp.search => "search-stub"
  | CrudOp.update => "update-stub"
  | CrudOp.delete => "delete-stub"

/-- The operations in the order `register_auto_methods` pushes them. -/
def allOps : List CrudOp :=
  [CrudOp.create, CrudOp.retrieve, CrudOp.search, CrudOp.update,
   CrudOp.delete]

/-- Does `needle` occur as a contiguous sublist of the second list?
Embeds Rust's `str::contains` substring test on the character level. -/
def containsSub (needle : List Char) : List Char → Bool
  | [] => needle.isEmpty
  | c :: rest => needle.isPrefixOf (c :: rest) || containsSub needle rest

/-- Rust's `str::contains(pat)` substring test. -/
def strContains (hay needle : String) : Bool :=
  containsSub needle.data hay.data

/-- Replace every occurrence of "::" by "." scanning left to right;
character-level embedding of `fm.replace("::", ".")`. -/
def dotChars : List Char → List Char
  | [] => []
  | ':' :: ':' :: rest => '.' :: dotChars rest
  | c :: rest => c :: dotChars rest

/-- `fm.replace("::", ".")` on strings. -/
def dotted (fm : String) : String := ⟨dotChars fm.data⟩

/-- One IDL class as consumed by `register_auto_methods`: its optional
controller tag string and its optional fieldmapper id. -/
structure IdlClass where
  classname : String
  controller : Option String
  fieldmapper : Option String
deriving DecidableEq, Repr

/-- A registered method; the name plus the stub template it was cloned
from (which carries the handler in the source). -/
structure Method where
  name : String
  stub : String
deriving DecidableEq, Repr

/-- The derived method name
`<service-id>.direct.<dotted-mapper-name>.<operation>` built by
`register_auto_methods`. -/
def apiname (fieldmapper : String) (op : CrudOp) : String :=
  APPNAME ++ ".direct." ++ fieldmapper ++ "." ++ op.opName

/-- The controller filter of `register_auto_methods` (app.rs lines
98-104): the class controller tag must contain "open-ils.cstore" or
"open-ils.rs-store" as a substring. -/
def classControlled (c : IdlClass) : Bool :=
  match c.controller with
  | some ctrl =>
    strContains ctrl "open-ils.cstore" || strContains ctrl "open-ils.rs-store"
  | none => false

/-- The fieldmapper ids selected by the iterator chain of
`register_auto_methods`: classes passing the controller filter that
declare a fieldmapper. -/
def qualFms (classes : List IdlClass) : List String :=
  classes.filterMap (fun c =>
    if classControlled c then c.fieldmapper else none)

/-- Embedding of `RsStoreApplication::register_auto_methods` (app.rs
lines 59-147): for every class passing the controller filter that
declares a fieldmapper, push the five CRUD stubs cloned under the
name `<APPNAME>.direct.<dotted fieldmapper>.<operation>`, in source
order create, retrieve, search, update, delete. -/
def register_auto_methods (classes : List IdlClass) : List Method :=
  (qualFms classes).flatMap (fun fm =>
    allOps.map (fun op =>
      { name := apiname (dotted fm) op, stub := op.stubName }))

/-- Embedding of `RsStoreApplication::register_xact_methods` (app.rs
lines 149-176); it pushes the begin/rollback/commit methods in that
order.  Modelled from the spec: the rs-store static method table
(its `methods.rs` is not under `src/`) publishes the transaction
control surface under the names `transaction.begin`,
`transaction.rollback`, `transaction.commit`. -/
def register_xact_methods : List Method :=
  [ { name := "transaction.begin", stub := "transaction.begin" },
    { name := "transaction.rollback", stub := "transaction.rollback" },
    { name := "transaction.commit", stub := "transaction.commit" } ]

/-- Embedding of `RsStoreApplication::register_methods` (app.rs lines
209-223): the derived methods followed by the static transaction
methods. -/
def register_methods (classes : List IdlClass) : List Method :=
  register_auto_methods classes ++ register_xact_methods

/-- The names of all methods produced by registration. -/
def methodNames (classes : List IdlClass) : List String :=
  (register_methods classes).map (fun m => m.name)

/-- Modelled from the spec: `eg::db::DatabaseConnection` (not under
`src/`) tracks whether a transaction is open on the connection. -/
structure DatabaseConnection where
  in_transaction : Bool
deriving DecidableEq, Repr

/-- Modelled from the spec: `xact_begin` fails if a transaction is
already open on this connection (no nesting), else opens one. -/
def xact_begin (db : DatabaseConnection) :
    Except String DatabaseConnection :=
  if db.in_transaction then Except.error "Transaction already open"
  else Except.ok { db with in_transaction := true }

/-- Modelled from the spec: `xact_commit` fails if no transaction is
open, else closes the open transaction. -/
def xact_commit (db : DatabaseConnection) :
    Except String DatabaseConnection :=
  if db.in_transaction then Except.ok { db with in_transaction := false }
  else Except.error "No transaction is open"

/-- Modelled from the spec: `xact_rollback` fails if no transaction is
open, else rolls the open transaction back, closing it. -/
def xact_rollback (db : DatabaseConnection) :
    Except String DatabaseConnection :=
  if db.in_transaction then Except.ok { db with in_transaction := false }
  else Except.error "No transaction is open"

/-- The per-thread worker state relevant to transaction safety: its
optional exclusive database connection (`RsStoreWorker.database`). -/
structure RsStoreWorker where
  database : Option DatabaseConnection
deriving DecidableEq, Repr

/-- Embedding of `RsStoreWorker::end_session` (app.rs lines 368-378):
if a database connection is present and mid-transaction, roll the
transaction back; otherwise do nothing. -/
def end_session (w : RsStoreWorker) : Except String RsStoreWorker :=
  match w.database with
  | some db =>
    if db.in_transaction then
      match xact_rollback db with
      | Except.ok db2 => Except.ok { w with database := some db2 }
      | Except.error e => Except.error e
    else Except.ok w
  | none => Except.ok w

/-- Embedding of `RsStoreWorker::keepalive_timeout` (app.rs lines
363-366): delegates to `end_session`. -/
def keepalive_timeout (w : RsStoreWorker) : Except String RsStoreWorker :=
  end_session w

/-- Embedding of `RsStoreWorker::api_call_error` (app.rs lines
380-383): runs `end_session`, ignoring any error it reports. -/
def api_call_error (w : RsStoreWorker) : RsStoreWorker :=
  match end_session w with
  | Except.ok w2 => w2
  | Except.error _ => w

/-- No transaction is open on the worker's connection (vacuously true
when it has no connection). -/
def noOpenXact (w : RsStoreWorker) : Bool :=
  match w.database with
  | some db => !db.in_transaction
  | none => true

/-- Modelled from the spec: the `transaction.begin` handler (rs-store
`methods.rs` is not under `src/`) begins a transaction on the worker's
connection via `xact_begin`; it fails when the worker has no
connection. -/
def xact_begin_method (w : RsStoreWorker) : Except String RsStoreWorker :=
  match w.database with
  | none => Except.error "We have no database connection!"
  | some db =>
    match xact_begin db with
    | Except.ok db2 => Except.ok { w with database := some db2 }
    | Except.error e => Except.error e

/-- Modelled from the spec: the `transaction.commit` handler commits
the open transaction via `xact_commit`. -/
def xact_commit_method (w : RsStoreWorker) : Except String RsStoreWorker :=
  match w.database with
  | none => Except.error "We have no database connection!"
  | some db =>
    match xact_commit db with
    | Except.ok db2 => Except.ok { w with database := some db2 }
    | Except.error e => Except.error e

/-- Modelled from the spec: the `transaction.rollback` handler rolls
back the open transaction via `xact_rollback`. -/
def xact_rollback_method (w : RsStoreWorker) : Except String RsStoreWorker :=
  match w.database with
  | none => Except.error "We have no database connection!"
  | some db =>
    match xact_rollback db with
    | Except.ok db2 => Except.ok { w with database := some db2 }
    | Except.error e => Except.error e

end StoreApp

namespace Sip

/-- A configured demo account (the spec's `lib1`/`pw1` scenario). -/
def acct0 : SipAccount :=
  { sip_username := "lib1", sip_password := "pw1", ils_username := "lib1",
    ils_user_id := none, workstation := none, institution := "BR1" }

/-- A demo deployment configuration allowing SC status before login. -/
def cfg0 : Config :=
  { accounts := [acct0], sc_status_before_login := true }

/-- A fresh, unauthenticated session under `cfg0`. -/
def sUnauth : SessionState :=
  { sip_config := cfg0, account := none, org_cache := [] }

/-- A session under `cfg0` with `acct0` bound (Authenticated). -/
def sAuth : SessionState :=
  { sip_config := cfg0, account := some acct0, org_cache := [] }

/-- Inert business handlers: reply with an error, leaving state
untouched. -/
def H0 : Handlers :=
  { checkin := fun s _ => (s, Except.error "unimplemented"),
    checkout := fun s _ => (s, Except.error "unimplemented"),
    item_info := fun s _ => (s, Except.error "unimplemented"),
    patron_status := fun s _ => (s, Except.error "unimplemented"),
    payment := fun s _ => (s, Except.error "unimplemented"),
    patron_info := fun s _ => (s, Except.error "unimplemented") }

/-- A benign backend oracle: every call succeeds without touching the
session state. -/
def O0 : IlsOracle :=
  { set_authtoken := fun s => (s, Except.ok ()),
    get_ws_org_id := fun s => (s, Except.ok 1),
    org_from_id := fun s _ => (s, Except.ok none),
    sip_date_now := "20240101    120000" }

/-- A checkout request (code "11") for barcode 123456. -/
def msgCheckout : Message :=
  { code := "11", fixedFields := [], fields := [("AB", "123456")] }

/-- A checkin request (code "09"). -/
def msgCheckin : Message :=
  { code := "09", fixedFields := [], fields := [("AB", "123456")] }

/-- A login request naming an unknown SIP account. -/
def msgBadLogin : Message :=
  { code := "93", fixedFields := ["0", "0"],
    fields := [("CN", "nobody"), ("CO", "xyz")] }

/-- The oracle properties `handle_sc_status` relies on for state-machine
reasoning: backend calls never unbind a bound account (they may update
its cached fields). -/
def IlsOracle.preservesAccount (O : IlsOracle) : Prop :=
  (∀ s : SessionState, s.account.isSome → ((O.set_authtoken s).1.account).isSome) ∧
  (∀ s : SessionState, s.account.isSome → ((O.get_ws_org_id s).1.account).isSome) ∧
  (∀ (s : SessionState) (i : Int), s.account.isSome →
    ((O.org_from_id s i).1.account).isSome)

/-- Modelled from the spec: the six business handlers (their bodies are
outside `src/`) never unbind a bound account — the session state machine
is one-way, with login the only transition touching the binding. -/
def Handlers.preservesAccount (H : Handlers) : Prop :=
  (∀ s m, (Option.isSome (SessionState.account s)) →
    (Option.isSome (SessionState.account (H.checkin s m).1))) ∧
  (∀ s m, (Option.isSome (SessionState.account s)) →
    (Option.isSome (SessionState.account (H.checkout s m).1))) ∧
  (∀ s m, (Option.isSome (SessionState.account s)) →
    (Option.isSome (SessionState.account (H.item_info s m).1))) ∧
  (∀ s m, (Option.isSome (SessionState.account s)) →
    (Option.isSome (SessionState.account (H.patron_status s m).1))) ∧
  (∀ s m, (Option.isSome (SessionState.account s)) →
    (Option.isSome (SessionState.account (H.payment s m).1))) ∧
  (∀ s m, (Option.isSome (SessionState.account s)) →
    (Option.isSome (SessionState.account (H.patron_info s m).1)))

/-- The concrete SC-status reply produced for an unauthenticated
session under `cfg0` with the `O0` oracle. -/
def scResp0 : Message :=
  { code := "98"
    fixedFields := ["Y", "Y", "Y", "Y", "N", "N", "999", "999",
      "20240101    120000", "2.00"]
    fields := [("BX", INSTITUTION_SUPPORTS), ("AF", ""), ("AG", "")] }

end Sip

namespace StoreApp

/-- A class controlled by `open-ils.cstore` only. -/
def cstoreOnlyClass : IdlClass :=
  { classname := "acn", controller := some "open-ils.cstore",
    fieldmapper := some "asset::call_number" }

/-- A class controlled by `open-ils.rs-store`. -/
def rsStoreClass : IdlClass :=
  { classname := "au", controller := some "open-ils.rs-store",
    fieldmapper := some "actor::user" }

/-- A metadata snapshot with two well-formed classes. -/
def demoClasses : List IdlClass := [cstoreOnlyClass, rsStoreClass]

/-- Two distinct classes whose distinct mapper ids collide after the
`::` → `.` rewrite. -/
def collidingClasses : List IdlClass :=
  [ { classname := "c1", controller := some "open-ils.rs-store",
      fieldmapper := some "a::b" },
    { classname := "c2", controller := some "open-ils.rs-store",
      fieldmapper := some "a.b" } ]

end StoreApp

namespace StoreApp

lemma rev_create : ("create".data).reverse = ['e', 't', 'a', 'e', 'r', 'c'] := rfl

lemma rev_retrieve : ("retrieve".data).reverse = ['e', 'v', 'e', 'i', 'r', 't', 'e', 'r'] := rfl

lemma rev_search : ("search".data).reverse = ['h', 'c', 'r', 'a', 'e', 's'] := rfl

lemma rev_update : ("update".data).reverse = ['e', 't', 'a', 'd', 'p', 'u'] := rfl

lemma rev_delete : ("delete".data).reverse = ['e', 't', 'e', 'l', 'e', 'd'] := rfl

/-- Splitting a string at the final "." separator is unambiguous when
the tail is one of the five operation names: the character lists before
the separator and the operations must agree. -/
lemma opName_dot_inj (x y : List Char) (o1 o2 : CrudOp)
    (h : x ++ '.' :: o1.opName.data = y ++ '.' :: o2.opName.data) :
    x = y ∧ o1 = o2 := by
  have hr := congrArg List.reverse h
  simp only [List.reverse_append, List.reverse_cons] at hr
  cases o1 <;> cases o2 <;>
    simp_all [CrudOp.opName, rev_create, rev_retrieve, rev_search,
      rev_update, rev_delete]

lemma apiname_data (fm : String) (op : CrudOp) :
    (apiname fm op).data =
      "open-ils.rs-store.direct.".data ++ fm.data ++ '.' :: op.opName.data := by
  show ((((APPNAME ++ ".direct.") ++ fm) ++ ".") ++ op.opName).data = _
  simp only [String.data_append]
  rw [show APPNAME.data ++ ".direct.".data = "open-ils.rs-store.direct.".data
    from rfl]
  simp [List.append_assoc, List.singleton_append]

/-- The derived-name convention is injective: equal names come from the
same dotted mapper id and the same operation. -/
lemma apiname_inj {fm1 fm2 : String} {o1 o2 : CrudOp}
    (h : apiname fm1 o1 = apiname fm2 o2) : fm1 = fm2 ∧ o1 = o2 := by
  have hd := congrArg String.data h
  rw [apiname_data, apiname_data, List.append_assoc, List.append_assoc] at hd
  have hd2 := List.append_cancel_left hd
  exact (opName_dot_inj _ _ _ _ hd2).imp String.ext id

lemma apiname_head (fm : String) (op : CrudOp) :
    (apiname fm op).data.head? = some 'o' := by
  rw [apiname_data]
  rw [show ("open-ils.rs-store.direct.".data : List Char) =
    'o' :: "pen-ils.rs-store.direct.".data from rfl]
  rfl

/-- A derived name never coincides with one of the static transaction
method names (derived names start with the service identity). -/
lemma apiname_ne_xact (fm : String) (op : CrudOp) (t : String)
    (ht : t ∈ ["transaction.begin", "transaction.rollback",
      "transaction.commit"]) :
    apiname fm op ≠ t := by
  intro h
  have hh := congrArg (fun u : String => u.data.head?) h
  simp only [apiname_head] at hh
  fin_cases ht <;> exact absurd hh (by decide)

/-- The full name list produced by registration, split into the derived
part and the static transaction part. -/
lemma methodNames_eq (classes : List IdlClass) :
    methodNames classes =
      (qualFms classes).flatMap
        (fun fm => allOps.map (fun op => apiname (dotted fm) op)) ++
      ["transaction.begin", "transaction.rollback", "transaction.commit"] := by
  simp [methodNames, register_methods, register_auto_methods,
    register_xact_methods, List.map_flatMap, List.map_map, Function.comp]
  rfl

lemma sum_map_const5 (l : List String) :
    (l.map (fun _ => (5 : Nat))).sum = 5 * l.length := by
  induction l with
  | nil => simp
  | cons a t ih => simp [ih]; omega

/-- C2: Whenever a worker session ends — explicit end (`end_session`),
keepalive timeout (`keepalive_timeout`), or API-call error
(`api_call_error`) — any open transaction on the worker's storage
connection is rolled back, so immediately afterwards the connection has
no open transaction. -/
theorem C2_session_end_closes_transaction :
    ∀ w w' : RsStoreWorker,
      ((end_session w = Except.ok w' ∨ keepalive_timeout w = Except.ok w') →
        noOpenXact w' = true) ∧
      noOpenXact (api_call_error w) = true := by
  intro w w'
  have key : end_session w = Except.ok w' → noOpenXact w' = true := by
    intro hv
    rcases w with ⟨_ | ⟨⟨b⟩⟩⟩
    · rw [show end_session ⟨none⟩ = Except.ok ⟨none⟩ from rfl] at hv
      injection hv with hv
      rw [← hv]
      rfl
    · cases b
      · rw [show end_session ⟨some ⟨false⟩⟩ = Except.ok ⟨some ⟨false⟩⟩
          from rfl] at hv
        injection hv with hv
        rw [← hv]
        rfl
      · rw [show end_session ⟨some ⟨true⟩⟩ = Except.ok ⟨some ⟨false⟩⟩
          from rfl] at hv
        injection hv with hv
        rw [← hv]
        rfl
  refine ⟨fun h => key (by rcases h with h | h <;> exact h), ?_⟩
  rcases w with ⟨_ | ⟨⟨b⟩⟩⟩
  · rfl
  · cases b <;> rfl

/-- Witness for C2 on a worker holding an open transaction. -/
theorem C2_witness :
    noOpenXact ⟨some ⟨false⟩⟩ = true ∧
    noOpenXact (api_call_error ⟨some ⟨true⟩⟩) = true :=
  ⟨(C2_session_end_closes_transaction ⟨some ⟨true⟩⟩ ⟨some ⟨false⟩⟩).1
    (Or.inl rfl),
   (C2_session_end_closes_transaction ⟨some ⟨true⟩⟩ ⟨some ⟨false⟩⟩).2⟩

/-- C6: `transaction.begin` fails when a transaction is already open on
the worker's connection; in particular a second `begin` without an
intervening commit/rollback fails; `commit` and `rollback` fail when no
transaction is open. -/
theorem C6_transaction_gating :
    ∀ (w w2 : RsStoreWorker) (db : DatabaseConnection),
      (w.database = some db → db.in_transaction = true →
        xact_begin_method w = Except.error "Transaction already open") ∧
      (xact_begin_method w = Except.ok w2 →
        xact_begin_method w2 = Except.error "Transaction already open") ∧
      (w.database = some db → db.in_transaction = false →
        xact_commit_method w = Except.error "No transaction is open" ∧
        xact_rollback_method w = Except.error "No transaction is open") := by
  intro w w2 db
  rcases w with ⟨_ | ⟨⟨b⟩⟩⟩
  · refine ⟨fun hdb => absurd hdb (by simp), fun hok => ?_,
      fun hdb => absurd hdb (by simp)⟩
    exact absurd hok (by simp [xact_begin_method])
  · rcases db with ⟨c⟩
    cases b
    · refine ⟨?_, ?_, fun _ _ => ⟨rfl, rfl⟩⟩
      · intro hdb ht
        injection hdb with hdb
        rw [← hdb] at ht
        exact absurd ht (by decide)
      · intro hok
        rw [show xact_begin_method ⟨some ⟨false⟩⟩ = Except.ok ⟨some ⟨true⟩⟩
          from rfl] at hok
        injection hok with hok
        rw [← hok]
        rfl
    · refine ⟨fun _ _ => rfl, ?_, ?_⟩
      · intro hok
        exact absurd hok (by simp [xact_begin_method, xact_begin])
      · intro hdb ht
        injection hdb with hdb
        rw [← hdb] at ht
        exact absurd ht (by decide)

/-- Witness for C6: a connection mid-transaction rejects `begin`; a
second `begin` after a successful one fails; commit/rollback fail on a
fresh connection. -/
theorem C6_witness :
    (xact_begin_method ⟨some ⟨true⟩⟩ = Except.error "Transaction already open") ∧
    (xact_begin_method ⟨some ⟨true⟩⟩ = Except.error "Transaction already open") ∧
    (xact_commit_method ⟨some ⟨false⟩⟩ = Except.error "No transaction is open" ∧
      xact_rollback_method ⟨some ⟨false⟩⟩ = Except.error "No transaction is open") :=
  ⟨(C6_transaction_gating ⟨some ⟨true⟩⟩ ⟨some ⟨true⟩⟩ ⟨true⟩).1 rfl rfl,
   (C6_transaction_gating ⟨some ⟨false⟩⟩ ⟨some ⟨true⟩⟩ ⟨false⟩).2.1 rfl,
   (C6_transaction_gating ⟨some ⟨false⟩⟩ ⟨some ⟨true⟩⟩ ⟨false⟩).2.2 rfl rfl⟩

end StoreApp

namespace StoreApp

/-- Counterexample to C3 as stated: a class whose controller tag is
only "open-ils.cstore" — which does not contain this service's identity
"open-ils.rs-store" — still yields 5 derived methods, so derived
methods ARE produced for classes other than those matching the service
identity. -/
theorem C3_counterexample :
    strContains "open-ils.cstore" APPNAME = false ∧
    register_auto_methods [cstoreOnlyClass] ≠ [] ∧
    (register_auto_methods [cstoreOnlyClass]).length = 5 := by decide

/-- C3 (amended): the classes selected are those whose controller tag
contains "open-ils.cstore" or "open-ils.rs-store" and which declare a
mapper id; each such class yields exactly 5 derived methods, one per
CRUD operation, named
`open-ils.rs-store.direct.<dotted-mapper-name>.<operation>`, and no
method is derived from any other class. -/
theorem C3_amended_auto_method_surface :
    ∀ classes : List IdlClass,
      (∀ m : Method, m ∈ register_auto_methods classes ↔
        ∃ c ∈ classes, classControlled c = true ∧
          ∃ fm, c.fieldmapper = some fm ∧
            ∃ op : CrudOp,
              m = { name := apiname (dotted fm) op, stub := op.stubName }) ∧
      (register_auto_methods classes).length = 5 * (qualFms classes).length := by
  intro classes
  constructor
  · intro m
    simp only [register_auto_methods, List.mem_flatMap, List.mem_map,
      qualFms, List.mem_filterMap]
    constructor
    · rintro ⟨fm, ⟨c, hc, hif⟩, op, _, rfl⟩
      by_cases hctrl : classControlled c = true
      · rw [if_pos hctrl] at hif
        exact ⟨c, hc, hctrl, fm, hif, op, rfl⟩
      · rw [if_neg hctrl] at hif
        exact absurd hif (by simp)
    · rintro ⟨c, hc, hctrl, fm, hfm, op, rfl⟩
      refine ⟨fm, ⟨c, hc, ?_⟩, op, ?_, rfl⟩
      · rw [if_pos hctrl]
        exact hfm
      · cases op <;> simp [allOps]
  · rw [register_auto_methods, List.length_flatMap]
    have hlen : ∀ fm : String,
        (allOps.map (fun op =>
          ({ name := apiname (dotted fm) op, stub := op.stubName } : Method))).length = 5 := by
      intro fm
      rfl
    rw [show (List.length ∘ fun fm =>
        allOps.map (fun op =>
          ({ name := apiname (dotted fm) op, stub := op.stubName } : Method))) =
        (fun _ => (5 : Nat)) from funext (fun fm => hlen fm)]
    exact sum_map_const5 _

/-- Counterexample to C4 as stated: two distinct classes whose distinct
mapper ids "a::b" and "a.b" collide after the `::` → `.` rewrite;
registration produces the full 13-method list containing duplicate
names instead of failing. -/
theorem C4_counterexample :
    ¬ (methodNames collidingClasses).Nodup ∧
    (register_methods collidingClasses).length = 13 := by decide

/-- C4 (amended): registration performs no collision check and cannot
fail on a name collision; however, whenever the dotted mapper ids of
the qualifying classes are pairwise distinct, the produced method list
(derived plus static transaction methods) contains no two methods with
the same name. -/
theorem C4_amended_names_nodup :
    ∀ classes : List IdlClass,
      ((qualFms classes).map dotted).Nodup → (methodNames classes).Nodup := by
  intro classes hnd
  rw [methodNames_eq, List.nodup_append]
  refine ⟨?_, by decide, ?_⟩
  · rw [List.nodup_flatMap]
    constructor
    · intro fm _
      refine List.Nodup.map ?_ (by decide)
      intro a b hab
      exact (apiname_inj hab).2
    · have hp : (qualFms classes).Pairwise
          (fun a b => dotted a ≠ dotted b) := by
        rw [List.Nodup, List.pairwise_map] at hnd
        exact hnd
      refine hp.imp ?_
      intro a b hab x hxa hxb
      rw [List.mem_map] at hxa hxb
      obtain ⟨o1, _, h1⟩ := hxa
      obtain ⟨o2, _, h2⟩ := hxb
      exact hab (apiname_inj (h1.trans h2.symm)).1
  · intro x hx hmem
    rw [List.mem_flatMap] at hx
    obtain ⟨fm, _, hx⟩ := hx
    rw [List.mem_map] at hx
    obtain ⟨op, _, rfl⟩ := hx
    exact apiname_ne_xact _ _ _ hmem rfl

/-- Witness for C4 (amended) on a snapshot with two distinct dotted
mapper ids. -/
theorem C4_amended_witness :
    ((qualFms demoClasses).map dotted).Nodup ∧
    (methodNames demoClasses).Nodup :=
  ⟨by decide, C4_amended_names_nodup demoClasses (by decide)⟩

/-- C5: registration is a pure function of the metadata snapshot; the
only run-to-run variation is the iteration order of the class table, and
any two iteration orders of the same snapshot yield the same method
name multiset, hence the same method name set. -/
theorem C5_registration_name_set_stable :
    ∀ classes1 classes2 : List IdlClass, classes1.Perm classes2 →
      (methodNames classes1).Perm (methodNames classes2) ∧
      ∀ n : String, n ∈ methodNames classes1 ↔ n ∈ methodNames classes2 := by
  intro l1 l2 hp
  have hperm : (methodNames l1).Perm (methodNames l2) := by
    rw [methodNames_eq, methodNames_eq]
    exact ((hp.filterMap _).flatMap_right _).append_right _
  exact ⟨hperm, fun n => hperm.mem_iff⟩

/-- Witness for C5 on the two orderings of a two-class snapshot. -/
theorem C5_witness :
    ([cstoreOnlyClass, rsStoreClass].Perm [rsStoreClass, cstoreOnlyClass]) ∧
    (methodNames [cstoreOnlyClass, rsStoreClass]).Perm
      (methodNames [rsStoreClass, cstoreOnlyClass]) :=
  ⟨List.Perm.swap rsStoreClass cstoreOnlyClass [],
   (C5_registration_name_set_stable _ _
     (List.Perm.swap rsStoreClass cstoreOnlyClass [])).1⟩

end StoreApp

namespace Sip

/-- A successful SC-status call leaves a bound account bound: the state
it returns comes from the original state through backend calls only. -/
lemma sc_status_preserves_account (O : IlsOracle) (hO : O.preservesAccount)
    (s : SessionState) (hs : s.account.isSome = true) :
    ((handle_sc_status O s).1.account).isSome = true := by
  obtain ⟨hset, hws, horg⟩ := hO
  obtain ⟨a, ha⟩ := Option.isSome_iff_exists.mp hs
  have h1 := hset s hs
  unfold handle_sc_status
  rw [ha]
  simp only [Option.isNone_some, Bool.false_and, Bool.false_eq_true,
    if_false]
  rcases h2 : O.set_authtoken s with ⟨s1, r1⟩
  rw [h2] at h1
  cases r1 with
  | error e => dsimp only; exact h1
  | ok u =>
    dsimp only
    have hs1 : s1.account.isSome = true := h1
    have h3 := hws s1 hs1
    rcases h4 : O.get_ws_org_id s1 with ⟨s2, r2⟩
    rw [h4] at h3
    cases r2 with
    | error e => dsimp only; exact h3
    | ok orgid =>
      dsimp only
      have hs2 : s2.account.isSome = true := h3
      have h5 := horg s2 orgid hs2
      rcases h6 : O.org_from_id s2 orgid with ⟨s3, r3⟩
      rw [h6] at h5
      cases r3 with
      | error e => dsimp only; exact h5
      | ok od => cases od <;> (dsimp only; exact h5)

end Sip

namespace Sip

/-- C7: the session authentication state machine is one-way — once an
account is bound, processing any request other than a fresh login
attempt (code "93") leaves an account bound.  The business handlers,
whose bodies are outside this repository's sources, are quantified
over and assumed account-preserving per the spec. -/
theorem C7_authentication_one_way :
    ∀ (H : Handlers) (O : IlsOracle) (s : SessionState) (msg : Message),
      H.preservesAccount → O.preservesAccount →
      s.account.isSome = true → msg.code ≠ "93" →
      (((handle_sip_request H O s msg).state.account).isSome) = true := by
  intro H O s msg hH hO hs h93
  obtain ⟨hci, hco, hii, hps, hpay, hpi⟩ := hH
  unfold handle_sip_request
  split_ifs with c99 c93 cnone c09 c11 c17 c23 c37 c63
  · exact sc_status_preserves_account O hO s hs
  · exact absurd (by simpa using c93) h93
  · rw [Option.isNone_iff_eq_none] at cnone
    rw [cnone] at hs
    exact absurd hs (by simp)
  · exact hci s msg hs
  · exact hco s msg hs
  · exact hii s msg hs
  · exact hps s msg hs
  · exact hpay s msg hs
  · exact hpi s msg hs
  · exact hs

/-- Witness for C7: an authenticated session processing an item-info
request with inert handlers stays authenticated. -/
theorem C7_witness :
    H0.preservesAccount ∧ O0.preservesAccount ∧
    sAuth.account.isSome = true ∧
    ("17" : String) ≠ "93" ∧
    (((handle_sip_request H0 O0 sAuth
      { code := "17", fixedFields := [], fields := [] }).state.account).isSome) = true := by
  have hH : H0.preservesAccount :=
    ⟨fun s m h => h, fun s m h => h, fun s m h => h,
     fun s m h => h, fun s m h => h, fun s m h => h⟩
  have hO : O0.preservesAccount :=
    ⟨fun s h => h, fun s h => h, fun s i h => h⟩
  exact ⟨hH, hO, rfl, by decide,
    C7_authentication_one_way H0 O0 sAuth
      { code := "17", fixedFields := [], fields := [] }
      hH hO rfl (by decide)⟩

/-- C10: whenever request dispatch invokes one of the authenticated
business handlers (any code other than "99" and "93"), an account is
bound at the point of invocation, so the panicking accessors
`account()` / `account_mut()` cannot fire on a dispatch-reached
handler invocation. -/
theorem C10_dispatch_implies_account_bound :
    ∀ (H : Handlers) (O : IlsOracle) (s : SessionState) (msg : Message)
      (c : String),
      (handle_sip_request H O s msg).dispatched = some c →
      s.account.isSome = true ∧ c ≠ "99" ∧ c ≠ "93" := by
  intro H O s msg c h
  unfold handle_sip_request at h
  have hacc : ¬ (s.account.isNone = true) → s.account.isSome = true := by
    intro hn
    cases hx : s.account with
    | none => exact absurd (by rw [hx]; rfl) hn
    | some a => rfl
  split_ifs at h with c99 c93 cnone c09 c11 c17 c23 c37 c63 <;>
    simp only [DispatchResult.mk.injEq] at h
  · obtain rfl : c = "09" := by injection h with h2; exact h2.symm
    exact ⟨hacc cnone, by decide, by decide⟩
  · obtain rfl : c = "11" := by injection h with h2; exact h2.symm
    exact ⟨hacc cnone, by decide, by decide⟩
  · obtain rfl : c = "17" := by injection h with h2; exact h2.symm
    exact ⟨hacc cnone, by decide, by decide⟩
  · obtain rfl : c = "23" := by injection h with h2; exact h2.symm
    exact ⟨hacc cnone, by decide, by decide⟩
  · obtain rfl : c = "37" := by injection h with h2; exact h2.symm
    exact ⟨hacc cnone, by decide, by decide⟩
  · obtain rfl : c = "63" := by injection h with h2; exact h2.symm
    exact ⟨hacc cnone, by decide, by decide⟩

/-- Witness for C10: dispatching a checkin on an authenticated session
records the invoked handler, and the theorem recovers that an account
was bound. -/
theorem C10_witness :
    (handle_sip_request H0 O0 sAuth msgCheckin).dispatched = some "09" ∧
    (sAuth.account.isSome = true ∧ ("09" : String) ≠ "99" ∧ ("09" : String) ≠ "93") :=
  ⟨rfl, C10_dispatch_implies_account_bound H0 O0 sAuth msgCheckin "09" rfl⟩

end Sip

namespace Sip

/-- Counterexample to C1 as stated: an unauthenticated session
processing a checkout (code "11") does NOT reply with a
"not logged in" failure and keep the connection open — the Err
propagates through the receive loop's `?`, which exits the loop and
terminates the session. -/
theorem C1_counterexample :
    session_step H0 O0 false (Except.ok (some msgCheckout)) true sUnauth =
      StepOutcome.exitErr "SIP client is not logged in" := rfl

/-- C1 (amended): in the Unauthenticated state, any request other than
status query ("99") and login ("93") makes `handle_sip_request` return
the error "SIP client is not logged in"; no reply is sent, and the
receive loop terminates with that error, ending the session. -/
theorem C1_amended_unauthenticated_request_terminates :
    ∀ (H : Handlers) (O : IlsOracle) (s : SessionState) (msg : Message)
      (sendOk : Bool),
      s.account = none → msg.code ≠ "99" → msg.code ≠ "93" →
      (handle_sip_request H O s msg).resp =
        Except.error "SIP client is not logged in" ∧
      session_step H O false (Except.ok (some msg)) sendOk s =
        StepOutcome.exitErr "SIP client is not logged in" := by
  intro H O s msg sendOk ha h99 h93
  have hd : (handle_sip_request H O s msg).resp =
      Except.error "SIP client is not logged in" := by
    unfold handle_sip_request
    rw [if_neg (by simpa using h99), if_neg (by simpa using h93),
      if_pos (by rw [ha]; rfl)]
  refine ⟨hd, ?_⟩
  unfold session_step
  rw [if_neg (by simp)]
  dsimp only
  rw [hd]

/-- Witness for C1 (amended) at the concrete unauthenticated checkout. -/
theorem C1_amended_witness :
    (sUnauth.account = none) ∧
    ((handle_sip_request H0 O0 sUnauth msgCheckout).resp =
      Except.error "SIP client is not logged in" ∧
    session_step H0 O0 false (Except.ok (some msgCheckout)) true sUnauth =
      StepOutcome.exitErr "SIP client is not logged in") :=
  ⟨rfl, C1_amended_unauthenticated_request_terminates H0 O0 sUnauth
    msgCheckout true rfl (by decide) (by decide)⟩

/-- C8: a login whose username names no configured account, whose
secret mismatches, or which is missing the CN/CO fields, yields a
successful (Ok) login reply carrying the negative acknowledgement "0",
leaves no account bound, and — dispatched through the receive loop —
lets the session continue (the reply is sent). -/
theorem C8_failed_login_negative_ack :
    ∀ (H : Handlers) (O : IlsOracle) (s : SessionState) (msg : Message),
      loginSucceeds s.sip_config msg = false →
      handle_login s msg =
        ({ s with account := none },
          Except.ok (mkLoginResp (num_bool false))) ∧
      (msg.code = "93" →
        session_step H O false (Except.ok (some msg)) true s =
          StepOutcome.sent { s with account := none }
            (mkLoginResp (num_bool false))) := by
  intro H O s msg hfail
  have hl : handle_login s msg =
      ({ s with account := none },
        Except.ok (mkLoginResp (num_bool false))) := by
    unfold handle_login
    unfold loginSucceeds at hfail
    rcases hCN : msg.getFieldValue "CN" with _ | u
    · rfl
    · rw [hCN] at hfail
      rcases hCO : msg.getFieldValue "CO" with _ | p
      · rfl
      · rw [hCO] at hfail
        dsimp only at hfail ⊢
        rcases hAcct : s.sip_config.get_account u with _ | acct
        · rfl
        · rw [hAcct] at hfail
          dsimp only at hfail
          dsimp only
          rw [if_neg (by simp [hfail])]
  refine ⟨hl, fun h93 => ?_⟩
  have hdisp : handle_sip_request H O s msg =
      { state := { s with account := none },
        resp := Except.ok (mkLoginResp (num_bool false)),
        dispatched := none } := by
    unfold handle_sip_request
    rw [if_neg (by simp [h93]), if_pos (by simp [h93]), hl]
  unfold session_step
  rw [if_neg (by simp)]
  dsimp only
  rw [hdisp]
  rfl

/-- Witness for C8 at a concrete login naming an unknown account. -/
theorem C8_witness :
    (loginSucceeds sUnauth.sip_config msgBadLogin = false) ∧
    (handle_login sUnauth msgBadLogin =
      ({ sUnauth with account := none },
        Except.ok (mkLoginResp (num_bool false))) ∧
    (msgBadLogin.code = "93" →
      session_step H0 O0 false (Except.ok (some msgBadLogin)) true sUnauth =
        StepOutcome.sent { sUnauth with account := none }
          (mkLoginResp (num_bool false)))) :=
  ⟨rfl, C8_failed_login_negative_ack H0 O0 sUnauth msgBadLogin rfl⟩

/-- C9: every successful SC-status reply, from any session state and
any backend behaviour, carries in its BX field the one fixed
deployment capability string `INSTITUTION_SUPPORTS`, which has exactly
16 yes/no positions; the string does not depend on the session. -/
theorem C9_capability_string_fixed :
    ∀ (O : IlsOracle) (s : SessionState) (m : Message),
      (handle_sc_status O s).2 = Except.ok m →
      m.getFieldValue "BX" = some INSTITUTION_SUPPORTS ∧
      INSTITUTION_SUPPORTS.length = 16 := by
  intro O s m h
  refine ⟨?_, by decide⟩
  unfold handle_sc_status at h
  by_cases hg : (s.account.isNone && !s.sip_config.sc_status_before_login) = true
  · rw [if_pos hg] at h
    exact absurd h (by simp)
  · rw [if_neg hg] at h
    rcases hacc : s.account with _ | a
    · rw [hacc] at h
      dsimp only at h
      injection h with h
      rw [← h]
      rfl
    · rw [hacc] at h
      dsimp only at h
      rcases h2 : O.set_authtoken s with ⟨s1, r1⟩
      rw [h2] at h
      cases r1 with
      | error e => exact absurd h (by simp)
      | ok u =>
        dsimp only at h
        rcases h4 : O.get_ws_org_id s1 with ⟨s2, r2⟩
        rw [h4] at h
        cases r2 with
        | error e => exact absurd h (by simp)
        | ok orgid =>
          dsimp only at h
          rcases h6 : O.org_from_id s2 orgid with ⟨s3, r3⟩
          rw [h6] at h
          cases r3 with
          | error e => exact absurd h (by simp)
          | ok od =>
            cases od with
            | none =>
              dsimp only at h
              injection h with h
              rw [← h]
              rfl
            | some org =>
              dsimp only at h
              injection h with h
              rw [← h]
              rfl

/-- Witness for C9: the unauthenticated status query under `cfg0`
returns `scResp0`, whose BX field is the fixed capability string. -/
theorem C9_witness :
    ((handle_sc_status O0 sUnauth).2 = Except.ok scResp0) ∧
    (scResp0.getFieldValue "BX" = some INSTITUTION_SUPPORTS ∧
      INSTITUTION_SUPPORTS.length = 16) :=
  ⟨rfl, C9_capability_string_fixed O0 sUnauth scResp0 rfl⟩

end Sip
